import Mathlib

/-!
# BetterLyrics: the page script (`src/script.js`)

A shallow embedding of the page script: what the script reads and writes
through its element handles becomes a `Page` record, every listener becomes a
function on `Page`, the
two clipboard promises become `Except` values handed to the listener, and
`setTimeout` becomes a queue of due times that `elapse` fires.

Time is counted in whole milliseconds.  A callback registered with
`setTimeout(f, d)` at time `T` runs when the clock reaches `T + d`.  A click
listener runs as one step, at the moment its clipboard promise settles.
Strings are sequences of Unicode scalar values.

The browser is a collaborator of the script: the text it shows for the markup
assigned to `innerHTML` enters the copy listener as the function `innerText`.
`renderedText` is a reference rendering used to evaluate concrete sessions.
-/

namespace BetterLyrics

/-! ## Strings -/

/-- Code points removed by `String.prototype.trim`: the ECMAScript `WhiteSpace`
and `LineTerminator` productions. -/
def isTrimChar (c : Char) : Bool :=
  let n := c.toNat
  n = 0x09 || n = 0x0A || n = 0x0B || n = 0x0C || n = 0x0D || n = 0x20 ||
  n = 0xA0 || n = 0x1680 || (0x2000 ≤ n && n ≤ 0x200A) || n = 0x2028 ||
  n = 0x2029 || n = 0x202F || n = 0x205F || n = 0x3000 || n = 0xFEFF

/-- Remove the leading and the trailing run of trim characters. -/
def trimChars (cs : List Char) : List Char :=
  ((cs.dropWhile isTrimChar).reverse.dropWhile isTrimChar).reverse

/-- The JavaScript method `s.trim()`. -/
def trim (s : String) : String := ⟨trimChars s.data⟩

/-- Newline normalisation on characters: every CR LF pair and every other CR
becomes one LF. -/
def normalizeNewlineChars : List Char → List Char
  | [] => []
  | '\r' :: '\n' :: rest => '\n' :: normalizeNewlineChars rest
  | '\r' :: rest => '\n' :: normalizeNewlineChars rest
  | c :: rest => c :: normalizeNewlineChars rest

/-- What `lyricsInput.value` reads back after the assignment
`lyricsInput.value = s`: the box is a text area, whose value has its newlines
normalised. -/
def normalizeNewlines (s : String) : String := ⟨normalizeNewlineChars s.data⟩

/-- Opening tag of the emphasised block written by the input listener. -/
def preOpen : String := "<pre class=\"font-sans font-bold text-2xl sm:text-3xl\">"

/-- Closing tag of the emphasised block. -/
def preClose : String := "</pre>"

/-- The sentence shown while there are no lyrics. -/
def placeholderText : String := "Your beautiful lyrics will be displayed here."

/-- The muted paragraph the input listener writes when the trimmed text is
empty. -/
def placeholderHTML : String :=
  "<p class=\"text-center text-gray-500 text-base\">Your beautiful lyrics will be displayed here.</p>"

/-! ## Page state -/

/-- A rejected clipboard promise (`readText` or `writeText`). -/
structure ClipboardError where
  name : String
  message : String
  deriving DecidableEq, Repr

/-- The state the script reads and writes.  `lyricsInputValue` is
`lyricsInput.value`, `lyricsOutputHTML` is `lyricsOutput.innerHTML`,
`messageText` is `messageText.textContent` and `messageBoxClassList` is
`messageBox.classList`.
`timers` holds the due time of every pending `setTimeout` callback of
`showMessage`, in registration order; `console` holds the `console.error`
entries and `clipboardWrites` the arguments of the `writeText` calls made so
far. -/
structure Page where
  now : Nat
  lyricsInputValue : String
  lyricsOutputHTML : String
  messageText : String
  messageBoxClassList : List String
  timers : List Nat
  console : List (String × ClipboardError)
  clipboardWrites : List String
  deriving DecidableEq, Repr

/-- The method `classList.remove(...tokens)`. -/
def classListRemove (classes tokens : List String) : List String :=
  classes.filter (fun c => !tokens.contains c)

/-- The method `classList.add(...tokens)`: a token already present is not added
again. -/
def classListAdd (classes tokens : List String) : List String :=
  tokens.foldl (fun acc t => if acc.contains t then acc else acc ++ [t]) classes

/-- The callback `showMessage` hands to `setTimeout`. -/
def hideMessage (p : Page) : Page :=
  { p with
    messageBoxClassList :=
      classListAdd (classListRemove p.messageBoxClassList ["scale-100", "opacity-100"])
        ["scale-0", "opacity-0"] }

/-- The delay `setTimeout` uses for the number `d`: the argument is converted to
a signed 32-bit integer (so it wraps modulo 2^32), and a negative result counts
as 0. -/
def timeoutDelay (d : Nat) : Nat :=
  let w := d % 2 ^ 32
  if w < 2 ^ 31 then w else 0

/-- The function `showMessage(text, duration = 3000)`.  An omitted second
argument is `none`.  No earlier callback is removed from the queue. -/
def showMessage (text : String) (duration : Option Nat) (p : Page) : Page :=
  let d := duration.getD 3000
  { p with
    messageText := text
    messageBoxClassList :=
      classListAdd (classListRemove p.messageBoxClassList ["scale-0", "opacity-0"])
        ["scale-100", "opacity-100"]
    timers := p.timers ++ [p.now + timeoutDelay d] }

/-- Let `dt` milliseconds pass: every pending callback whose due time has been
reached runs and leaves the queue. -/
def elapse (dt : Nat) (p : Page) : Page :=
  let t := p.now + dt
  let due := p.timers.filter (fun d => decide (d ≤ t))
  let rest := p.timers.filter (fun d => !decide (d ≤ t))
  let q := due.foldl (fun q _ => hideMessage q) { p with timers := rest }
  { q with now := t }

/-- The two states of the toast of the notification controller. -/
inductive Notification where
  | hidden
  | visible (text : String)
  deriving DecidableEq, Repr

/-- What the toast shows, read off the class list: visible when the two
scale-100 / opacity-100 classes are on and the two scale-0 / opacity-0 classes
are off, hidden in the opposite case. -/
def notification (p : Page) : Option Notification :=
  let c := p.messageBoxClassList
  if c.contains "scale-100" && c.contains "opacity-100" &&
      !c.contains "scale-0" && !c.contains "opacity-0" then
    some (Notification.visible p.messageText)
  else if c.contains "scale-0" && c.contains "opacity-0" &&
      !c.contains "scale-100" && !c.contains "opacity-100" then
    some Notification.hidden
  else none

/-! ## Listeners -/

/-- The listener of the input event on `lyricsInput`. -/
def inputListener (p : Page) : Page :=
  let text := trim p.lyricsInputValue
  if text ≠ "" then
    { p with lyricsOutputHTML := preOpen ++ text ++ preClose }
  else
    { p with lyricsOutputHTML := placeholderHTML }

/-- The `console.error(label, err)` call. -/
def consoleError (label : String) (err : ClipboardError) (p : Page) : Page :=
  { p with console := p.console ++ [(label, err)] }

/-- The click listener of the paste button, run with the outcome `readText` of
`navigator.clipboard.readText()`.  The assignment to `lyricsInput.value` leaves
the text in the box with its newlines normalised.  An error result of the
listener is a rejection that escaped it. -/
def pasteListener (readText : Except ClipboardError String) (p : Page) :
    Except ClipboardError Page :=
  try
    let text ← readText
    let p1 := { p with lyricsInputValue := normalizeNewlines text }
    let p2 := inputListener p1
    pure (showMessage "Lyrics pasted successfully!" none p2)
  catch err =>
    let p1 := consoleError "Failed to read from clipboard:" err p
    pure (showMessage
      "Could not paste lyrics. Please click on the text area and press Ctrl+V or Cmd+V."
      (some 5000) p1)

/-- The click listener of the copy button.  `innerText` is the browser's
rendering of the output region (the text it shows for a given `innerHTML`) and
`writeText` the outcome of `navigator.clipboard.writeText`.  The call is logged
in `clipboardWrites` when it is issued, before its promise settles. -/
def copyListener (innerText : String → String)
    (writeText : String → Except ClipboardError Unit) (p : Page) :
    Except ClipboardError Page :=
  let textToCopy := innerText p.lyricsOutputHTML
  if textToCopy ≠ "" ∧ textToCopy ≠ "Your beautiful lyrics will be displayed here." then
    let p1 := { p with clipboardWrites := p.clipboardWrites ++ [textToCopy] }
    try
      writeText textToCopy
      pure (showMessage "Lyrics copied to clipboard!" none p1)
    catch err =>
      let p2 := consoleError "Failed to copy text: " err p1
      pure (showMessage
        "Could not copy lyrics. Please select the text and press Ctrl+C or Cmd+C."
        (some 5000) p2)
  else
    pure (showMessage "There are no lyrics to copy." (some 3000) p)

/-! ## Sessions -/

/-- What can happen to the page: the user edits the box so that it holds
`value`, clicks paste or copy (with the outcome of the clipboard call), or lets
time pass. -/
inductive Event where
  | input (value : String)
  | paste (readText : Except ClipboardError String)
  | copy (writeText : String → Except ClipboardError Unit)
  | wait (dt : Nat)

/-- One event. -/
def step (innerText : String → String) (e : Event) (p : Page) :
    Except ClipboardError Page :=
  match e with
  | Event.input value => pure (inputListener { p with lyricsInputValue := value })
  | Event.paste readText => pasteListener readText p
  | Event.copy writeText => copyListener innerText writeText p
  | Event.wait dt => pure (elapse dt p)

/-- A sequence of events, oldest first; it stops at the first rejection that
escapes a listener. -/
def run (innerText : String → String) : List Event → Page → Except ClipboardError Page
  | [], p => pure p
  | e :: es, p => do
    let q ← step innerText e p
    run innerText es q

/-- Modelled from the spec: `index.html` is not among the sources.  The page
right after load has an empty input box, shows the placeholder, and its toast
is hidden with no timer pending. -/
def loadPage : Page :=
  { now := 0
    lyricsInputValue := ""
    lyricsOutputHTML := placeholderHTML
    messageText := ""
    messageBoxClassList := ["scale-0", "opacity-0"]
    timers := []
    console := []
    clipboardWrites := [] }

/-- The text mirror: the markup the input listener writes for the input value
`s`. -/
def mirror (s : String) : String :=
  (inputListener { loadPage with lyricsInputValue := s }).lyricsOutputHTML

/-! ## A reference rendering -/

/-- Does the text after a `<` begin a tag (a letter, or `/` and a letter)? -/
def startsTag : List Char → Bool
  | c :: d :: _ => c.isAlpha || (c == '/' && d.isAlpha)
  | [c] => c.isAlpha
  | [] => false

/-- Character data of a markup fragment.  The flag says whether the scan is
inside a tag; a tag runs up to the next `>`.  Character references are left
as written. -/
def markupChars : Bool → List Char → List Char
  | _, [] => []
  | true, c :: rest => if c == '>' then markupChars false rest else markupChars true rest
  | false, c :: rest =>
    if c == '<' && startsTag rest then markupChars true rest
    else c :: markupChars false rest

/-- Reference rendering of the output region for markup made of text and plain
tags: the text a browser shows for such an `innerHTML`.  It does not decode
character references and gives `br`, comments and `script` content no special
treatment; it is applied only to markup free of them. -/
def renderedText (html : String) : String := ⟨markupChars false html.data⟩

/-- Characters the markup parser passes through as character data: anything but
the tag opener, the reference opener, carriage return and NUL. -/
def isPlainChar (c : Char) : Bool :=
  !(c == '<' || c == '&' || c == '\r' || c.toNat == 0)

/-! ## Auxiliary facts -/

theorem pre_ne_placeholder (t : String) : preOpen ++ t ++ preClose ≠ placeholderHTML := by
  intro h
  have h2 := congrArg (fun s => s.data.take 3) h
  simp only [String.data_append, List.append_assoc] at h2
  have h3 : preOpen.data = ['<', 'p', 'r'] ++ preOpen.data.drop 3 := by decide
  rw [h3] at h2
  simp at h2
  revert h2
  decide

theorem mirror_eq (s : String) :
    mirror s = if trim s ≠ "" then preOpen ++ trim s ++ preClose else placeholderHTML := by
  unfold mirror inputListener
  by_cases h : trim s = "" <;> simp [h]

theorem inputListener_outputHTML (p : Page) : (inputListener p).lyricsOutputHTML = mirror p.lyricsInputValue := by
  unfold mirror inputListener
  by_cases h : trim p.lyricsInputValue = "" <;> simp [h]

theorem mem_classListRemove (cl toks : List String) (c : String) :
    c ∈ classListRemove cl toks ↔ c ∈ cl ∧ c ∉ toks := by
  simp [classListRemove]

theorem mem_classListAdd (toks cl : List String) (c : String) :
    c ∈ classListAdd cl toks ↔ c ∈ cl ∨ c ∈ toks := by
  unfold classListAdd
  induction toks generalizing cl with
  | nil => simp
  | cons t ts ih =>
    simp only [List.foldl_cons, ih, List.mem_cons]
    by_cases ht : cl.contains t = true
    · simp only [ht, if_true]
      have : t ∈ cl := by simpa using ht
      constructor
      · rintro (h | h)
        · exact Or.inl h
        · exact Or.inr (Or.inr h)
      · rintro (h | h | h)
        · exact Or.inl h
        · exact Or.inl (h ▸ this)
        · exact Or.inr h
    · have ht2 : cl.contains t = false := by simpa using ht
      simp only [ht2, Bool.false_eq_true, if_false, List.mem_append, List.mem_singleton]
      tauto


theorem notification_showMessage (text : String) (d : Option Nat) (p : Page) :
    notification (showMessage text d p) = some (Notification.visible text) := by
  simp [notification, showMessage, mem_classListAdd, mem_classListRemove]

theorem notification_hideMessage (p : Page) :
    notification (hideMessage p) = some Notification.hidden := by
  simp [notification, hideMessage, mem_classListAdd, mem_classListRemove]

theorem foldl_hide_nonempty (l : List Nat) (hl : l ≠ []) (q : Page) :
    notification (l.foldl (fun q _ => hideMessage q) q) = some Notification.hidden := by
  induction l generalizing q with
  | nil => exact absurd rfl hl
  | cons a l ih =>
    by_cases h : l = []
    · subst h
      simpa using notification_hideMessage q
    · simpa using ih h (hideMessage q)

theorem notification_elapse_none (k : Nat) (p : Page)
    (h : ∀ d ∈ p.timers, p.now + k < d) : notification (elapse k p) = notification p := by
  have hdue : p.timers.filter (fun d => decide (d ≤ p.now + k)) = [] := by
    rw [List.filter_eq_nil_iff]
    intro d hd
    have := h d hd
    simp
    omega
  simp [elapse, hdue, notification]

theorem notification_elapse_some (k : Nat) (p : Page) (d : Nat)
    (hd : d ∈ p.timers) (h : d ≤ p.now + k) :
    notification (elapse k p) = some Notification.hidden := by
  have hdue : p.timers.filter (fun d => decide (d ≤ p.now + k)) ≠ [] := by
    intro h0
    rw [List.filter_eq_nil_iff] at h0
    exact h0 d hd (by simpa using h)
  have := foldl_hide_nonempty _ hdue
    { p with timers := p.timers.filter (fun d => !decide (d ≤ p.now + k)) }
  simpa [elapse, notification] using this


theorem pasteListener_ok (c : String) (p : Page) :
    pasteListener (Except.ok c) p =
      Except.ok (showMessage "Lyrics pasted successfully!" none
        (inputListener { p with lyricsInputValue := normalizeNewlines c })) := rfl

theorem timeoutDelay_of_lt (d : Nat) (h : d < 2 ^ 31) : timeoutDelay d = d := by
  unfold timeoutDelay
  have h1 : d % 2 ^ 32 = d := Nat.mod_eq_of_lt (by omega)
  simp only [h1, if_pos h]

theorem normalizeNewlineChars_of_no_cr (l : List Char) (h : ∀ c ∈ l, c ≠ '\r') :
    normalizeNewlineChars l = l := by
  induction l with
  | nil => rfl
  | cons c l ih =>
    have hc : c ≠ '\r' := h c (List.mem_cons_self _ _)
    have ih2 := ih (fun d hd => h d (List.mem_cons_of_mem _ hd))
    rw [normalizeNewlineChars]
    · rw [ih2]
    · intro rest hr _
      exact hc hr
    · intro hr
      exact hc hr

theorem normalizeNewlines_of_no_cr (s : String) (h : ∀ c ∈ s.data, c ≠ '\r') :
    normalizeNewlines s = s := by
  unfold normalizeNewlines
  rw [normalizeNewlineChars_of_no_cr _ h]

theorem pasteListener_error (err : ClipboardError) (p : Page) :
    pasteListener (Except.error err) p =
      Except.ok (showMessage
        "Could not paste lyrics. Please click on the text area and press Ctrl+V or Cmd+V."
        (some 5000) (consoleError "Failed to read from clipboard:" err p)) := rfl

theorem copyListener_skip (innerText : String → String)
    (writeText : String → Except ClipboardError Unit) (p : Page)
    (h : innerText p.lyricsOutputHTML = "" ∨ innerText p.lyricsOutputHTML = placeholderText) :
    copyListener innerText writeText p =
      Except.ok (showMessage "There are no lyrics to copy." (some 3000) p) := by
  unfold copyListener
  have : ¬ (innerText p.lyricsOutputHTML ≠ "" ∧
      innerText p.lyricsOutputHTML ≠ "Your beautiful lyrics will be displayed here.") := by
    rcases h with h | h
    · simp [h]
    · intro hc
      exact hc.2 h
  rw [if_neg this]
  rfl

theorem copyListener_ok (innerText : String → String)
    (writeText : String → Except ClipboardError Unit) (p : Page)
    (h1 : innerText p.lyricsOutputHTML ≠ "") (h2 : innerText p.lyricsOutputHTML ≠ placeholderText)
    (hw : writeText (innerText p.lyricsOutputHTML) = Except.ok ()) :
    copyListener innerText writeText p =
      Except.ok (showMessage "Lyrics copied to clipboard!" none
        { p with clipboardWrites := p.clipboardWrites ++ [innerText p.lyricsOutputHTML] }) := by
  unfold copyListener
  have : innerText p.lyricsOutputHTML ≠ "" ∧
      innerText p.lyricsOutputHTML ≠ "Your beautiful lyrics will be displayed here." := ⟨h1, h2⟩
  rw [if_pos this, hw]
  rfl

theorem copyListener_error (innerText : String → String)
    (writeText : String → Except ClipboardError Unit) (p : Page) (err : ClipboardError)
    (h1 : innerText p.lyricsOutputHTML ≠ "") (h2 : innerText p.lyricsOutputHTML ≠ placeholderText)
    (hw : writeText (innerText p.lyricsOutputHTML) = Except.error err) :
    copyListener innerText writeText p =
      Except.ok (showMessage
        "Could not copy lyrics. Please select the text and press Ctrl+C or Cmd+C."
        (some 5000) (consoleError "Failed to copy text: " err
        { p with clipboardWrites := p.clipboardWrites ++ [innerText p.lyricsOutputHTML] })) := by
  unfold copyListener
  have : innerText p.lyricsOutputHTML ≠ "" ∧
      innerText p.lyricsOutputHTML ≠ "Your beautiful lyrics will be displayed here." := ⟨h1, h2⟩
  rw [if_pos this, hw]
  rfl

theorem foldl_hide_eq (l : List Nat) (q : Page) :
    ∃ cs, l.foldl (fun q _ => hideMessage q) q = { q with messageBoxClassList := cs } := by
  induction l generalizing q with
  | nil => exact ⟨q.messageBoxClassList, rfl⟩
  | cons a l ih =>
    obtain ⟨cs, h⟩ := ih (hideMessage q)
    refine ⟨cs, ?_⟩
    rw [List.foldl_cons, h]
    rfl

theorem elapse_eq (k : Nat) (p : Page) :
    ∃ cs, elapse k p =
      { p with
        now := p.now + k
        timers := p.timers.filter (fun d => !decide (d ≤ p.now + k))
        messageBoxClassList := cs } := by
  obtain ⟨cs, h⟩ := foldl_hide_eq (p.timers.filter (fun d => decide (d ≤ p.now + k)))
    { p with timers := p.timers.filter (fun d => !decide (d ≤ p.now + k)) }
  exact ⟨cs, by simp [elapse, h]⟩

theorem pasteListener_returns (r : Except ClipboardError String) (p : Page) :
    ∃ q, pasteListener r p = Except.ok q ∧
      q.lyricsOutputHTML = (match r with
        | Except.ok c => mirror (normalizeNewlines c)
        | Except.error _ => p.lyricsOutputHTML) ∧
      q.lyricsInputValue = (match r with
        | Except.ok c => normalizeNewlines c
        | Except.error _ => p.lyricsInputValue) := by
  cases r with
  | ok c =>
    refine ⟨_, pasteListener_ok c p, ?_, ?_⟩
    · exact inputListener_outputHTML { p with lyricsInputValue := normalizeNewlines c }
    · simp only [showMessage, inputListener]
      split <;> rfl
  | error err => exact ⟨_, pasteListener_error err p, rfl, rfl⟩

theorem copyListener_returns (innerText : String → String)
    (writeText : String → Except ClipboardError Unit) (p : Page) :
    ∃ q, copyListener innerText writeText p = Except.ok q ∧
      q.lyricsInputValue = p.lyricsInputValue ∧ q.lyricsOutputHTML = p.lyricsOutputHTML := by
  by_cases h : innerText p.lyricsOutputHTML = "" ∨ innerText p.lyricsOutputHTML = placeholderText
  · exact ⟨_, copyListener_skip innerText writeText p h, rfl, rfl⟩
  · have h1 : innerText p.lyricsOutputHTML ≠ "" := fun e => h (Or.inl e)
    have h2 : innerText p.lyricsOutputHTML ≠ placeholderText := fun e => h (Or.inr e)
    cases hw : writeText (innerText p.lyricsOutputHTML) with
    | ok u => exact ⟨_, copyListener_ok innerText writeText p h1 h2 hw, rfl, rfl⟩
    | error err => exact ⟨_, copyListener_error innerText writeText p err h1 h2 hw, rfl, rfl⟩

theorem elapse_frame (k : Nat) (p : Page) :
    (elapse k p).lyricsInputValue = p.lyricsInputValue ∧ (elapse k p).lyricsOutputHTML = p.lyricsOutputHTML := by
  obtain ⟨cs, h⟩ := elapse_eq k p
  rw [h]
  exact ⟨rfl, rfl⟩

theorem step_invariant (innerText : String → String) (e : Event) (p : Page)
    (h : p.lyricsOutputHTML = mirror p.lyricsInputValue) :
    ∃ q, step innerText e p = Except.ok q ∧ q.lyricsOutputHTML = mirror q.lyricsInputValue := by
  cases e with
  | input value =>
    refine ⟨_, rfl, ?_⟩
    rw [inputListener_outputHTML]
    simp only [inputListener]
    split <;> rfl
  | paste r =>
    obtain ⟨q, hq, ho, hi⟩ := pasteListener_returns r p
    refine ⟨q, hq, ?_⟩
    cases r with
    | ok c => rw [ho, hi]
    | error err => rw [ho, hi]; exact h
  | copy w =>
    obtain ⟨q, hq, hi, ho⟩ := copyListener_returns innerText w p
    exact ⟨q, hq, by rw [ho, hi]; exact h⟩
  | wait dt =>
    refine ⟨_, rfl, ?_⟩
    rw [(elapse_frame dt p).1, (elapse_frame dt p).2]
    exact h

theorem run_invariant (innerText : String → String) (es : List Event) (p : Page)
    (h : p.lyricsOutputHTML = mirror p.lyricsInputValue) :
    ∃ q, run innerText es p = Except.ok q ∧ q.lyricsOutputHTML = mirror q.lyricsInputValue := by
  induction es generalizing p with
  | nil => exact ⟨p, rfl, h⟩
  | cons e es ih =>
    obtain ⟨q, hq, hinv⟩ := step_invariant innerText e p h
    obtain ⟨r, hr, hinv2⟩ := ih q hinv
    refine ⟨r, ?_, hinv2⟩
    show (step innerText e p >>= fun q => run innerText es q) = Except.ok r
    rw [hq]
    exact hr

theorem mirror_eq_placeholder_iff (s : String) : mirror s = placeholderHTML ↔ trim s = "" := by
  rw [mirror_eq]
  by_cases h : trim s = ""
  · simp [h]
  · simp [h, pre_ne_placeholder]

theorem markupChars_tag (body rest : List Char) (h : ∀ c ∈ body, c ≠ '>') :
    markupChars true (body ++ '>' :: rest) = markupChars false rest := by
  induction body with
  | nil => simp [markupChars]
  | cons c body ih =>
    have hc : c ≠ '>' := h c (List.mem_cons_self _ _)
    have ih2 := ih (fun d hd => h d (List.mem_cons_of_mem _ hd))
    simp [markupChars, hc, ih2]

theorem markupChars_text (t rest : List Char) (h : ∀ c ∈ t, c ≠ '<') :
    markupChars false (t ++ rest) = t ++ markupChars false rest := by
  induction t with
  | nil => simp
  | cons c t ih =>
    have hc : c ≠ '<' := h c (List.mem_cons_self _ _)
    have ih2 := ih (fun d hd => h d (List.mem_cons_of_mem _ hd))
    simp [markupChars, hc, ih2]

theorem markupChars_open (body rest : List Char)
    (hs : startsTag (body ++ '>' :: rest) = true) (hb : ∀ c ∈ body, c ≠ '>') :
    markupChars false ('<' :: (body ++ '>' :: rest)) = markupChars false rest := by
  rw [markupChars]
  simp only [hs, beq_self_eq_true, Bool.and_self, if_true]
  exact markupChars_tag body rest hb

theorem markupChars_preOpen (rest : List Char) :
    markupChars false (preOpen.data ++ rest) = markupChars false rest := by
  have h : preOpen.data = '<' :: ('p' :: 'r' :: (preOpen.data.drop 3).dropLast ++ ['>']) := by
    decide
  have hb : ∀ c ∈ 'p' :: 'r' :: (preOpen.data.drop 3).dropLast, c ≠ '>' := by decide
  rw [h]
  have := markupChars_open ('p' :: 'r' :: (preOpen.data.drop 3).dropLast) rest (by rfl) hb
  simpa using this

theorem renderedText_mirror_plain (s : String) (hne : trim s ≠ "")
    (h : ∀ c ∈ (trim s).data, isPlainChar c = true) : renderedText (mirror s) = trim s := by
  have h2 : ∀ c ∈ (trim s).data, c ≠ '<' := by
    intro c hc hlt
    have := h c hc
    rw [hlt] at this
    revert this
    decide
  rw [mirror_eq, if_pos hne]
  unfold renderedText
  simp only [String.data_append, List.append_assoc]
  rw [markupChars_preOpen, markupChars_text _ _ h2]
  have : markupChars false preClose.data = [] := by decide
  rw [this, List.append_nil]

theorem foldl_hide_classes (l : List Nat) (q : Page) :
    l.foldl (fun q _ => hideMessage q) q =
      { q with
        messageBoxClassList :=
          (fun c => classListAdd (classListRemove c ["scale-100", "opacity-100"])
            ["scale-0", "opacity-0"])^[l.length] q.messageBoxClassList } := by
  induction l generalizing q with
  | nil => rfl
  | cons a l ih =>
    rw [List.foldl_cons, ih (hideMessage q)]
    simp [hideMessage, Function.iterate_succ_apply]

theorem filter_split_length (l : List Nat) (s t : Nat) (h : s ≤ t) :
    ((l.filter (fun d => !decide (d ≤ s))).filter (fun d => decide (d ≤ t))).length
      + (l.filter (fun d => decide (d ≤ s))).length
      = (l.filter (fun d => decide (d ≤ t))).length := by
  induction l with
  | nil => rfl
  | cons a l ih =>
    simp only [List.filter_filter] at ih ⊢
    by_cases h1 : a ≤ s
    · have h2 : a ≤ t := Nat.le_trans h1 h
      simp [List.filter_cons, h1, h2]
      omega
    · by_cases h2 : a ≤ t
      · simp [List.filter_cons, h1, h2]
        omega
      · simp [List.filter_cons, h1, h2]
        omega

theorem filter_split_rest (l : List Nat) (s t : Nat) (h : s ≤ t) :
    (l.filter (fun d => !decide (d ≤ s))).filter (fun d => !decide (d ≤ t))
      = l.filter (fun d => !decide (d ≤ t)) := by
  rw [List.filter_filter]
  apply List.filter_congr
  intro d _
  by_cases h2 : d ≤ t
  · simp [h2]
  · have h1 : ¬ d ≤ s := fun h1 => h2 (Nat.le_trans h1 h)
    simp [h1, h2]

theorem elapse_elapse (a b : Nat) (p : Page) : elapse b (elapse a p) = elapse (a + b) p := by
  have hlen := filter_split_length p.timers (p.now + a) (p.now + (a + b)) (by omega)
  have hrest := filter_split_rest p.timers (p.now + a) (p.now + (a + b)) (by omega)
  unfold elapse
  simp only [foldl_hide_classes, Nat.add_assoc]
  rw [hrest, ← hlen, Function.iterate_add_apply]

/-! ## The text mirror -/

/-- C1 (failing input): the input value `<b>x</b>` is already trimmed, the input
listener writes it unescaped between the `pre` tags, and the markup it writes
shows `x`, which is not the trimmed text. -/
theorem input_markup_not_shown_verbatim :
    trim "<b>x</b>" = "<b>x</b>" ∧
    mirror "<b>x</b>" =
      "<pre class=\"font-sans font-bold text-2xl sm:text-3xl\"><b>x</b></pre>" ∧
    renderedText (mirror "<b>x</b>") = "x" ∧
    renderedText (mirror "<b>x</b>") ≠ trim "<b>x</b>" := by
  decide

/-! ## Paste -/

/-- C2 (counterexample): the clipboard holds `a`, CR, LF, `b`.  The read
succeeds, and afterwards the input box holds `a`, LF, `b`, which is not the
clipboard content, and the output region does not hold `mirror` of the
clipboard content. -/
theorem paste_does_not_keep_carriage_return :
    ∃ q, pasteListener (Except.ok "a\r\nb") loadPage = Except.ok q ∧
      q.lyricsInputValue = "a\nb" ∧ q.lyricsInputValue ≠ "a\r\nb" ∧
      q.lyricsOutputHTML ≠ mirror "a\r\nb" := by
  refine ⟨_, pasteListener_ok _ _, ?_, ?_, ?_⟩ <;> decide

/-- C2 (amended): when the clipboard read succeeds with `c`, the paste listener
returns normally; afterwards the input box holds `c` with its newlines
normalised (every CR LF pair and every other CR replaced by LF; this is `c`
itself when `c` has no CR) and the output region holds `mirror` of that value,
whatever they held before, and the toast shows 'Lyrics pasted successfully!'
with its timer due 3000 ms later. -/
theorem paste_success_sets_source_and_display (p : Page) (c : String) :
    ∃ q, pasteListener (Except.ok c) p = Except.ok q ∧
      q.lyricsInputValue = normalizeNewlines c ∧
      q.lyricsOutputHTML = mirror (normalizeNewlines c) ∧
      ((∀ ch ∈ c.data, ch ≠ '\r') →
        q.lyricsInputValue = c ∧ q.lyricsOutputHTML = mirror c) ∧
      notification q = some (Notification.visible "Lyrics pasted successfully!") ∧
      q.timers = p.timers ++ [p.now + 3000] ∧
      q = showMessage "Lyrics pasted successfully!" none
        (inputListener { p with lyricsInputValue := normalizeNewlines c }) := by
  have hv : (showMessage "Lyrics pasted successfully!" none
      (inputListener { p with lyricsInputValue := normalizeNewlines c })).lyricsInputValue
      = normalizeNewlines c := by
    simp only [showMessage, inputListener]
    split <;> rfl
  have hh : (showMessage "Lyrics pasted successfully!" none
      (inputListener { p with lyricsInputValue := normalizeNewlines c })).lyricsOutputHTML
      = mirror (normalizeNewlines c) :=
    inputListener_outputHTML { p with lyricsInputValue := normalizeNewlines c }
  refine ⟨_, pasteListener_ok c p, hv, hh, ?_, notification_showMessage _ _ _, ?_, rfl⟩
  · intro hc
    rw [hv, hh, normalizeNewlines_of_no_cr c hc]
    exact ⟨rfl, rfl⟩
  · simp only [showMessage, inputListener]
    split <;> rfl

/-- Witness of C2 (amended): two lines separated by LF are pasted over typed
text. -/
theorem paste_success_sets_source_and_display_witness :
    ∃ q, pasteListener (Except.ok "la\nla")
        (inputListener { loadPage with lyricsInputValue := "do re mi" }) = Except.ok q ∧
      q.lyricsInputValue = normalizeNewlines "la\nla" ∧
      q.lyricsOutputHTML = mirror (normalizeNewlines "la\nla") ∧
      ((∀ ch ∈ "la\nla".data, ch ≠ '\r') →
        q.lyricsInputValue = "la\nla" ∧ q.lyricsOutputHTML = mirror "la\nla") ∧
      notification q = some (Notification.visible "Lyrics pasted successfully!") ∧
      q.timers = (inputListener { loadPage with lyricsInputValue := "do re mi" }).timers ++
        [(inputListener { loadPage with lyricsInputValue := "do re mi" }).now + 3000] ∧
      q = showMessage "Lyrics pasted successfully!" none
        (inputListener { (inputListener { loadPage with lyricsInputValue := "do re mi" }) with
          lyricsInputValue := normalizeNewlines "la\nla" }) :=
  paste_success_sets_source_and_display
    (inputListener { loadPage with lyricsInputValue := "do re mi" }) "la\nla"

/-- C3: when the clipboard read fails, the paste listener leaves the value of
the input box and the content of the output region as they were. -/
theorem paste_failure_keeps_source_and_display (p : Page) (err : ClipboardError) :
    ∃ q, pasteListener (Except.error err) p = Except.ok q ∧
      q.lyricsInputValue = p.lyricsInputValue ∧ q.lyricsOutputHTML = p.lyricsOutputHTML := by
  exact ⟨_, pasteListener_error err p, rfl, rfl⟩

/-! ## Copy -/

/-- C4: when the displayed text is empty or is the placeholder sentence, the
copy listener makes no `writeText` call (the call log is unchanged and the
outcome does not depend on the clipboard) and raises
'There are no lyrics to copy.' with its timer due 3000 ms later. -/
theorem copy_of_nothing_skips_clipboard (innerText : String → String)
    (writeText : String → Except ClipboardError Unit) (p : Page)
    (h : innerText p.lyricsOutputHTML = "" ∨ innerText p.lyricsOutputHTML = placeholderText) :
    ∃ q, copyListener innerText writeText p = Except.ok q ∧
      q.clipboardWrites = p.clipboardWrites ∧
      (∀ w, copyListener innerText w p = Except.ok q) ∧
      notification q = some (Notification.visible "There are no lyrics to copy.") ∧
      q.timers = p.timers ++ [p.now + 3000] := by
  exact ⟨_, copyListener_skip innerText writeText p h, rfl,
    fun w => copyListener_skip innerText w p h, notification_showMessage _ _ _, rfl⟩

/-- Witness of C4 on the freshly loaded page, which shows the placeholder. -/
theorem copy_of_nothing_skips_clipboard_witness :
    (renderedText loadPage.lyricsOutputHTML = "" ∨
      renderedText loadPage.lyricsOutputHTML = placeholderText) ∧
    ∃ q, copyListener renderedText (fun _ => Except.ok ()) loadPage = Except.ok q ∧
      q.clipboardWrites = loadPage.clipboardWrites ∧
      (∀ w, copyListener renderedText w loadPage = Except.ok q) ∧
      notification q = some (Notification.visible "There are no lyrics to copy.") ∧
      q.timers = loadPage.timers ++ [loadPage.now + 3000] :=
  ⟨by decide, copy_of_nothing_skips_clipboard renderedText (fun _ => Except.ok ()) loadPage
    (by decide)⟩

/-- C5: when the displayed text `d` is non-empty and is not the placeholder
sentence, the copy listener makes exactly one `writeText` call, with argument
`d`, whatever the input box holds and whether or not the write succeeds. -/
theorem copy_writes_displayed_text (innerText : String → String)
    (writeText : String → Except ClipboardError Unit) (p : Page) (d : String)
    (hd : innerText p.lyricsOutputHTML = d) (hne : d ≠ "") (hnp : d ≠ placeholderText) :
    ∃ q, copyListener innerText writeText p = Except.ok q ∧
      q.clipboardWrites = p.clipboardWrites ++ [d] := by
  subst hd
  cases hw : writeText (innerText p.lyricsOutputHTML) with
  | ok u => exact ⟨_, copyListener_ok innerText writeText p hne hnp hw, rfl⟩
  | error err => exact ⟨_, copyListener_error innerText writeText p err hne hnp hw, rfl⟩

/-- Witness of C5: the box holds '  Hello  ', the region shows 'Hello', and
'Hello' is what is written. -/
theorem copy_writes_displayed_text_witness :
    (renderedText (inputListener { loadPage with lyricsInputValue := "  Hello  " }).lyricsOutputHTML
      = "Hello" ∧ "Hello" ≠ "" ∧ "Hello" ≠ placeholderText) ∧
    ∃ q, copyListener renderedText (fun _ => Except.ok ())
        (inputListener { loadPage with lyricsInputValue := "  Hello  " }) = Except.ok q ∧
      q.clipboardWrites =
        (inputListener { loadPage with lyricsInputValue := "  Hello  " }).clipboardWrites
          ++ ["Hello"] :=
  ⟨by decide, copy_writes_displayed_text renderedText (fun _ => Except.ok ())
    (inputListener { loadPage with lyricsInputValue := "  Hello  " }) "Hello"
    (by decide) (by decide) (by decide)⟩

/-! ## The toast -/

/-- C8 (counterexample): A is requested at time 0 with delay 5000 and B at time
4000 with delay 3000, with no request after B; at time 5500, inside
[4000, 7000), the toast is hidden, because the timer of A ran at 5000. -/
theorem toast_cut_short_by_earlier_timer :
    (elapse 4000 (showMessage "A" (some 5000) loadPage)).now = 4000 ∧
    notification (showMessage "B" (some 3000)
      (elapse 4000 (showMessage "A" (some 5000) loadPage))) =
        some (Notification.visible "B") ∧
    1500 < 3000 ∧
    notification (elapse 1500 (showMessage "B" (some 3000)
      (elapse 4000 (showMessage "A" (some 5000) loadPage)))) = some Notification.hidden := by
  decide

/-- C8 (amended): a notification requested at time T with delay D in
{3000, 5000}, at a moment when no timer of an earlier request is due before
T + D, and followed by no other request, is visible with exactly the requested
text at every time in [T, T + D) and hidden at every time after T + D; a
request without a delay is a request with delay 3000. -/
theorem toast_lifetime (p : Page) (text : String) (D : Nat) (hD : D = 3000 ∨ D = 5000)
    (hquiet : ∀ t ∈ p.timers, p.now + D ≤ t) :
    (∀ k, k < D →
      notification (elapse k (showMessage text (some D) p)) =
        some (Notification.visible text)) ∧
    (∀ k, D < k →
      notification (elapse k (showMessage text (some D) p)) = some Notification.hidden) ∧
    showMessage text none p = showMessage text (some 3000) p := by
  have hdel : timeoutDelay D = D := by
    rcases hD with h | h <;> subst h <;> rfl
  have htim : (showMessage text (some D) p).timers = p.timers ++ [p.now + D] := by
    show p.timers ++ [p.now + timeoutDelay D] = p.timers ++ [p.now + D]
    rw [hdel]
  have hnow : (showMessage text (some D) p).now = p.now := rfl
  refine ⟨?_, ?_, rfl⟩
  · intro k hk
    rw [notification_elapse_none, notification_showMessage]
    intro t ht
    rw [htim] at ht
    rw [hnow]
    rcases List.mem_append.mp ht with h | h
    · have := hquiet t h
      omega
    · have : t = p.now + D := by simpa using h
      omega
  · intro k hk
    apply notification_elapse_some k _ (p.now + D)
    · rw [htim]
      simp
    · rw [hnow]
      omega

/-- Witness of C8 (amended): A was requested at time 0 with delay 5000 and its
timer, due at 5000, is still pending when B is requested at time 1000 with
delay 3000. -/
theorem toast_lifetime_witness :
    ((3000 = 3000 ∨ 3000 = 5000) ∧
      (elapse 1000 (showMessage "A" (some 5000) loadPage)).timers = [5000] ∧
      ∀ t ∈ (elapse 1000 (showMessage "A" (some 5000) loadPage)).timers,
        (elapse 1000 (showMessage "A" (some 5000) loadPage)).now + 3000 ≤ t) ∧
    ((∀ k, k < 3000 →
        notification (elapse k (showMessage "B" (some 3000)
          (elapse 1000 (showMessage "A" (some 5000) loadPage)))) =
          some (Notification.visible "B")) ∧
      (∀ k, 3000 < k →
        notification (elapse k (showMessage "B" (some 3000)
          (elapse 1000 (showMessage "A" (some 5000) loadPage)))) =
          some Notification.hidden) ∧
      showMessage "B" none (elapse 1000 (showMessage "A" (some 5000) loadPage)) =
        showMessage "B" (some 3000) (elapse 1000 (showMessage "A" (some 5000) loadPage))) :=
  ⟨⟨by decide, by decide, by decide⟩,
    toast_lifetime (elapse 1000 (showMessage "A" (some 5000) loadPage)) "B" 3000
      (by decide) (by decide)⟩

/-- C7 (counterexample): A is requested at time 0 with the default delay 3000
and B at time 1 with delay 5000.  The request for B leaves the timer of A in
the queue, and at time 3500, before 1 + 5000, the toast is hidden. -/
theorem newer_toast_hidden_by_older_timer :
    (showMessage "B" (some 5000) (elapse 1 (showMessage "A" none loadPage))).timers =
      [3000, 5001] ∧
    (showMessage "B" (some 5000) (elapse 1 (showMessage "A" none loadPage))).now = 1 ∧
    1 + 3499 < 1 + 5000 ∧
    notification (elapse 3499 (showMessage "B" (some 5000)
      (elapse 1 (showMessage "A" none loadPage)))) = some Notification.hidden := by
  decide

/-- C7 (amended): let A be requested at time T with delay dA while no timer is
pending, and B at a time T + gap < T + dA with delay dB, both delays below
2^31 ms.  The request for B keeps the timer of A in the queue; the toast shows
the text of B at every time from T + gap up to the earlier of T + dA and
T + gap + dB, and is hidden from then on. -/
theorem newer_toast_lifetime (p : Page) (a b : String) (dA dB : Option Nat) (gap k : Nat)
    (hp : p.timers = []) (hA : dA.getD 3000 < 2 ^ 31) (hB : dB.getD 3000 < 2 ^ 31)
    (hlt : gap < dA.getD 3000) :
    (showMessage b dB (elapse gap (showMessage a dA p))).timers =
      [p.now + dA.getD 3000, p.now + gap + dB.getD 3000] ∧
    notification (elapse k (showMessage b dB (elapse gap (showMessage a dA p)))) =
      if gap + k < dA.getD 3000 ∧ k < dB.getD 3000 then some (Notification.visible b)
      else some Notification.hidden := by
  obtain ⟨cs, he⟩ := elapse_eq gap (showMessage a dA p)
  have hkeep : ([p.now + dA.getD 3000].filter
      (fun d => !decide (d ≤ p.now + gap))) = [p.now + dA.getD 3000] := by
    rw [List.filter_eq_self]
    intro t ht
    have : t = p.now + dA.getD 3000 := by simpa using ht
    subst this
    simp
    omega
  have ht : (showMessage b dB (elapse gap (showMessage a dA p))).timers =
      [p.now + dA.getD 3000, p.now + gap + dB.getD 3000] := by
    rw [he]
    simp only [showMessage, hp, List.nil_append, timeoutDelay_of_lt _ hA,
      timeoutDelay_of_lt _ hB, hkeep]
    rfl
  have hn : (showMessage b dB (elapse gap (showMessage a dA p))).now = p.now + gap := by
    rw [he]
    rfl
  refine ⟨ht, ?_⟩
  by_cases hk : gap + k < dA.getD 3000 ∧ k < dB.getD 3000
  · rw [if_pos hk, notification_elapse_none, notification_showMessage]
    intro t h
    rw [ht] at h
    rw [hn]
    have : t = p.now + dA.getD 3000 ∨ t = p.now + gap + dB.getD 3000 := by simpa using h
    omega
  · rw [if_neg hk]
    by_cases hA2 : gap + k < dA.getD 3000
    · apply notification_elapse_some k _ (p.now + gap + dB.getD 3000)
      · rw [ht]
        simp
      · rw [hn]
        have : ¬ k < dB.getD 3000 := fun h => hk ⟨hA2, h⟩
        omega
    · apply notification_elapse_some k _ (p.now + dA.getD 3000)
      · rw [ht]
        simp
      · rw [hn]
        omega

/-- Witness of C7 (amended): A with the default delay on the freshly loaded
page, B one millisecond later with delay 5000, observed 3499 ms after B. -/
theorem newer_toast_lifetime_witness :
    (loadPage.timers = [] ∧ (none : Option Nat).getD 3000 < 2 ^ 31 ∧
      (some 5000).getD 3000 < 2 ^ 31 ∧ 1 < (none : Option Nat).getD 3000) ∧
    ((showMessage "B" (some 5000) (elapse 1 (showMessage "A" none loadPage))).timers =
        [loadPage.now + (none : Option Nat).getD 3000,
          loadPage.now + 1 + (some 5000).getD 3000] ∧
      notification (elapse 3499 (showMessage "B" (some 5000)
          (elapse 1 (showMessage "A" none loadPage)))) =
        if 1 + 3499 < (none : Option Nat).getD 3000 ∧ 3499 < (some 5000).getD 3000 then
          some (Notification.visible "B")
        else some Notification.hidden) :=
  ⟨by decide, newer_toast_lifetime loadPage "A" "B" none (some 5000) 1 3499
    (by decide) (by decide) (by decide) (by decide)⟩

/-! ## Failures and sessions -/

/-- C6: a rejected clipboard read in the paste listener and a rejected
clipboard write in the copy listener are both caught: the listener returns
normally, with exactly one new console entry and one toast carrying the
instructional text with its timer due 5000 ms later; and no event of a session
ends in a rejection that escapes its listener. -/
theorem clipboard_failure_is_contained (innerText : String → String)
    (writeText : String → Except ClipboardError Unit) (p : Page) (errR errW : ClipboardError)
    (h1 : innerText p.lyricsOutputHTML ≠ "") (h2 : innerText p.lyricsOutputHTML ≠ placeholderText)
    (hw : writeText (innerText p.lyricsOutputHTML) = Except.error errW) :
    (∃ q, pasteListener (Except.error errR) p = Except.ok q ∧
      q.console = p.console ++ [("Failed to read from clipboard:", errR)] ∧
      notification q = some (Notification.visible
        "Could not paste lyrics. Please click on the text area and press Ctrl+V or Cmd+V.") ∧
      q.timers = p.timers ++ [p.now + 5000]) ∧
    (∃ q, copyListener innerText writeText p = Except.ok q ∧
      q.console = p.console ++ [("Failed to copy text: ", errW)] ∧
      notification q = some (Notification.visible
        "Could not copy lyrics. Please select the text and press Ctrl+C or Cmd+C.") ∧
      q.timers = p.timers ++ [p.now + 5000]) ∧
    (∀ (e : Event) (p0 : Page), ∃ q, step innerText e p0 = Except.ok q) := by
  refine ⟨⟨_, pasteListener_error errR p, rfl, notification_showMessage _ _ _, rfl⟩,
    ⟨_, copyListener_error innerText writeText p errW h1 h2 hw, rfl,
      notification_showMessage _ _ _, rfl⟩, ?_⟩
  intro e p0
  cases e with
  | input value => exact ⟨_, rfl⟩
  | paste r =>
    obtain ⟨q, hq, _⟩ := pasteListener_returns r p0
    exact ⟨q, hq⟩
  | copy w =>
    obtain ⟨q, hq, _⟩ := copyListener_returns innerText w p0
    exact ⟨q, hq⟩
  | wait dt => exact ⟨_, rfl⟩

/-- Witness of C6: the region shows 'Hello' and both clipboard calls are
refused. -/
theorem clipboard_failure_is_contained_witness :
    (renderedText (inputListener { loadPage with lyricsInputValue := "Hello" }).lyricsOutputHTML ≠ "" ∧
      renderedText (inputListener { loadPage with lyricsInputValue := "Hello" }).lyricsOutputHTML
        ≠ placeholderText ∧
      (fun _ => (Except.error ⟨"NotAllowedError", "Write permission denied."⟩ :
          Except ClipboardError Unit))
        (renderedText (inputListener { loadPage with lyricsInputValue := "Hello" }).lyricsOutputHTML) =
        Except.error ⟨"NotAllowedError", "Write permission denied."⟩) ∧
    ((∃ q, pasteListener (Except.error ⟨"NotAllowedError", "Read permission denied."⟩)
          (inputListener { loadPage with lyricsInputValue := "Hello" }) = Except.ok q ∧
        q.console = (inputListener { loadPage with lyricsInputValue := "Hello" }).console ++
          [("Failed to read from clipboard:",
            ⟨"NotAllowedError", "Read permission denied."⟩)] ∧
        notification q = some (Notification.visible
          "Could not paste lyrics. Please click on the text area and press Ctrl+V or Cmd+V.") ∧
        q.timers = (inputListener { loadPage with lyricsInputValue := "Hello" }).timers ++
          [(inputListener { loadPage with lyricsInputValue := "Hello" }).now + 5000]) ∧
      (∃ q, copyListener renderedText
          (fun _ => Except.error ⟨"NotAllowedError", "Write permission denied."⟩)
          (inputListener { loadPage with lyricsInputValue := "Hello" }) = Except.ok q ∧
        q.console = (inputListener { loadPage with lyricsInputValue := "Hello" }).console ++
          [("Failed to copy text: ", ⟨"NotAllowedError", "Write permission denied."⟩)] ∧
        notification q = some (Notification.visible
          "Could not copy lyrics. Please select the text and press Ctrl+C or Cmd+C.") ∧
        q.timers = (inputListener { loadPage with lyricsInputValue := "Hello" }).timers ++
          [(inputListener { loadPage with lyricsInputValue := "Hello" }).now + 5000]) ∧
      (∀ (e : Event) (p0 : Page), ∃ q, step renderedText e p0 = Except.ok q)) :=
  ⟨⟨by decide, by decide, rfl⟩,
    clipboard_failure_is_contained renderedText
      (fun _ => Except.error ⟨"NotAllowedError", "Write permission denied."⟩)
      (inputListener { loadPage with lyricsInputValue := "Hello" })
      ⟨"NotAllowedError", "Read permission denied."⟩
      ⟨"NotAllowedError", "Write permission denied."⟩
      (by decide) (by decide) rfl⟩

/-- C9: from a load state (empty input box, placeholder displayed), every
finite sequence of input, paste, copy and timer events runs to the end, and
afterwards the output region holds `mirror` of the value of the input box;
the copy listener, `showMessage` and the timer callbacks leave both the input
box and the output region untouched. -/
theorem display_is_mirror_of_source (innerText : String → String) (p0 : Page)
    (hsrc : p0.lyricsInputValue = "") (hout : p0.lyricsOutputHTML = placeholderHTML) (es : List Event) :
    (∃ q, run innerText es p0 = Except.ok q ∧ q.lyricsOutputHTML = mirror q.lyricsInputValue) ∧
    (∀ (w : String → Except ClipboardError Unit) (p : Page),
      ∃ q, copyListener innerText w p = Except.ok q ∧
        q.lyricsInputValue = p.lyricsInputValue ∧ q.lyricsOutputHTML = p.lyricsOutputHTML) ∧
    (∀ (text : String) (d : Option Nat) (p : Page),
      (showMessage text d p).lyricsInputValue = p.lyricsInputValue ∧
      (showMessage text d p).lyricsOutputHTML = p.lyricsOutputHTML) ∧
    (∀ (k : Nat) (p : Page),
      (elapse k p).lyricsInputValue = p.lyricsInputValue ∧ (elapse k p).lyricsOutputHTML = p.lyricsOutputHTML) := by
  refine ⟨run_invariant innerText es p0 ?_, copyListener_returns innerText,
    fun _ _ _ => ⟨rfl, rfl⟩, elapse_frame⟩
  rw [hsrc, hout]
  decide

/-- Witness of C9: a session that types, copies with a refused write, waits,
pastes 'la la' and has a later paste refused. -/
theorem display_is_mirror_of_source_witness :
    (loadPage.lyricsInputValue = "" ∧ loadPage.lyricsOutputHTML = placeholderHTML) ∧
    ((∃ q, run renderedText
        [Event.input " do re mi ",
          Event.copy (fun _ => Except.error ⟨"NotAllowedError", "denied"⟩),
          Event.wait 6000,
          Event.paste (Except.ok "la la"),
          Event.paste (Except.error ⟨"NotAllowedError", "denied"⟩)] loadPage = Except.ok q ∧
        q.lyricsOutputHTML = mirror q.lyricsInputValue) ∧
      (∀ (w : String → Except ClipboardError Unit) (p : Page),
        ∃ q, copyListener renderedText w p = Except.ok q ∧
          q.lyricsInputValue = p.lyricsInputValue ∧ q.lyricsOutputHTML = p.lyricsOutputHTML) ∧
      (∀ (text : String) (d : Option Nat) (p : Page),
        (showMessage text d p).lyricsInputValue = p.lyricsInputValue ∧
        (showMessage text d p).lyricsOutputHTML = p.lyricsOutputHTML) ∧
      (∀ (k : Nat) (p : Page),
        (elapse k p).lyricsInputValue = p.lyricsInputValue ∧ (elapse k p).lyricsOutputHTML = p.lyricsOutputHTML)) :=
  ⟨⟨rfl, rfl⟩, display_is_mirror_of_source renderedText loadPage rfl rfl _⟩

/-- C10: when the trimmed input is the placeholder sentence, the input is not
empty and the input listener writes it in the emphasised `pre` block (not the
muted placeholder paragraph); the region then shows the placeholder sentence,
so the copy listener makes no `writeText` call and raises
'There are no lyrics to copy.'. -/
theorem placeholder_sentence_is_shown_but_not_copied (innerText : String → String)
    (writeText : String → Except ClipboardError Unit) (p : Page) (s : String)
    (hs : trim s = placeholderText)
    (hshow : innerText (preOpen ++ placeholderText ++ preClose) = placeholderText) :
    s ≠ "" ∧
    (inputListener { p with lyricsInputValue := s }).lyricsOutputHTML = preOpen ++ trim s ++ preClose ∧
    (inputListener { p with lyricsInputValue := s }).lyricsOutputHTML ≠ placeholderHTML ∧
    ∃ q, copyListener innerText writeText (inputListener { p with lyricsInputValue := s })
        = Except.ok q ∧
      q.clipboardWrites = p.clipboardWrites ∧
      (∀ w, copyListener innerText w (inputListener { p with lyricsInputValue := s }) = Except.ok q) ∧
      notification q = some (Notification.visible "There are no lyrics to copy.") := by
  have hne : trim s ≠ "" := by
    rw [hs]
    decide
  have hout : (inputListener { p with lyricsInputValue := s }).lyricsOutputHTML
      = preOpen ++ trim s ++ preClose := by
    rw [inputListener_outputHTML, mirror_eq, if_pos hne]
  have hskip : innerText (inputListener { p with lyricsInputValue := s }).lyricsOutputHTML = "" ∨
      innerText (inputListener { p with lyricsInputValue := s }).lyricsOutputHTML = placeholderText := by
    right
    rw [hout, hs]
    exact hshow
  refine ⟨?_, hout, ?_, _, copyListener_skip innerText writeText _ hskip, ?_,
    fun w => copyListener_skip innerText w _ hskip, notification_showMessage _ _ _⟩
  · intro h
    rw [h] at hs
    revert hs
    decide
  · rw [hout]
    exact pre_ne_placeholder _
  · simp only [showMessage, inputListener]
    split <;> rfl

/-- Witness of C10: the sentence typed with blanks around it. -/
theorem placeholder_sentence_is_shown_but_not_copied_witness :
    (trim "  Your beautiful lyrics will be displayed here.  " = placeholderText ∧
      renderedText (preOpen ++ placeholderText ++ preClose) = placeholderText) ∧
    ("  Your beautiful lyrics will be displayed here.  " ≠ "" ∧
      (inputListener { loadPage with
          lyricsInputValue := "  Your beautiful lyrics will be displayed here.  " }).lyricsOutputHTML =
        preOpen ++ trim "  Your beautiful lyrics will be displayed here.  " ++ preClose ∧
      (inputListener { loadPage with
          lyricsInputValue := "  Your beautiful lyrics will be displayed here.  " }).lyricsOutputHTML
        ≠ placeholderHTML ∧
      ∃ q, copyListener renderedText (fun _ => Except.ok ())
          (inputListener { loadPage with
            lyricsInputValue := "  Your beautiful lyrics will be displayed here.  " })
          = Except.ok q ∧
        q.clipboardWrites = loadPage.clipboardWrites ∧
        (∀ w, copyListener renderedText w
          (inputListener { loadPage with
            lyricsInputValue := "  Your beautiful lyrics will be displayed here.  " })
          = Except.ok q) ∧
        notification q = some (Notification.visible "There are no lyrics to copy.")) :=
  ⟨by decide, placeholder_sentence_is_shown_but_not_copied renderedText
    (fun _ => Except.ok ()) loadPage "  Your beautiful lyrics will be displayed here.  "
    (by decide) (by decide)⟩

end BetterLyrics
